import Mathlib

/-
  Verification of the LPL-SNN repository core (src/model/src/model.py,
  src/model/src/network.py, src/model/src/settings.py) against its
  natural-language specification.

  Numeric tensors are shallowly embedded as rational-valued functions over
  finite index types; Python deques with maxlen are embedded as lists whose
  append drops the oldest entry.  The helper classes of model/src/util.py
  (TemporalFilter, MovingAverageTracker, SpikeMovingAverage,
  VarianceMovingAverage, MovingAverageLIF) are not present under src/, so
  they are modelled from the specification, as marked on each definition.
-/

namespace LPLSNN

/-- A batch-by-units tensor: shape (b, n), rational entries. -/
abbrev Mat (b n : ℕ) : Type := Fin b × Fin n → ℚ

/-- A rank-3 tensor of shape (b, n, p), rational entries. -/
abbrev Ten3 (b n p : ℕ) : Type := Fin b × Fin n × Fin p → ℚ

/-- The all-zeros (b, n) tensor, `torch.zeros(b, n)`. -/
def zeroMat (b n : ℕ) : Mat b n := fun _ => 0

/-- Embedding of appending to a Python `Deque(maxlen = maxlen)` held as a
list with the most recent element last: the new element goes to the back and,
when capacity is exceeded, the oldest (front) elements are dropped. -/
def dequeAppend {α : Type} (maxlen : ℕ) (q : List α) (x : α) : List α :=
  let q2 := q ++ [x]
  q2.drop (q2.length - maxlen)

/-- Python negative index [-1] on a list (most recent element); total via a
default value, as the source only reads it from nonempty records. -/
def recLast {α : Type} (l : List α) (d : α) : α := l.getLast?.getD d

/-- Python negative index [-2] on a list (second most recent element). -/
def recPenult {α : Type} (l : List α) (d : α) : α := l.dropLast.getLast?.getD d

/-! Constants of model.py (lines 15-38). -/

/-- model.py line 16. -/
def THETA_REST : ℚ := 0

/-- model.py line 22. -/
def LAMBDA_HEBBIAN : ℚ := 1

/-- model.py line 25: XI = 1e-3. -/
def XI : ℚ := 1 / 1000

/-- model.py line 28: DELTA = 1e-5. -/
def DELTA : ℚ := 1 / 100000

/-- model.py line 31. -/
def TAU_RISE_ALPHA : ℚ := 2

/-- model.py line 32. -/
def TAU_FALL_ALPHA : ℚ := 10

/-- model.py line 33. -/
def TAU_RISE_EPSILON : ℚ := 5

/-- model.py line 34. -/
def TAU_FALL_EPSILON : ℚ := 20

/-- model.py line 36. -/
def MAX_RETAINED_MEMS : ℕ := 2

/-- model.py line 38. -/
def DATA_MEM_ASSUMPTION : ℚ := 1 / 2

/-- Modelled from the spec: model/src/util.py is absent from src/; spec section 4.1
describes TemporalFilter as two cascaded first-order low-pass stages with time
constants tau_rise and tau_fall, each call updating both persistent stage
states and returning the second stage value.  The state type is any function
space into the rationals, matching shape inference from the first call. -/
structure TemporalFilter (α : Type) where
  tau_rise : ℚ
  tau_fall : ℚ
  rise : α
  fall : α

/-- Modelled from the spec: one TemporalFilter.apply call (spec section 4.1); each
stage is a first-order low-pass update toward its input, and the filtered
value is the second (fall) stage. -/
def TemporalFilter.apply {ι : Type} (f : TemporalFilter (ι → ℚ)) (x : ι → ℚ) :
    (ι → ℚ) × TemporalFilter (ι → ℚ) :=
  let rise : ι → ℚ := fun i => f.rise i + (x i - f.rise i) / f.tau_rise
  let fall : ι → ℚ := fun i => f.fall i + (rise i - f.fall i) / f.tau_fall
  (fall, { f with rise := rise, fall := fall })

/-- Modelled from the spec: SpikeMovingAverage (spec section 4.2) wraps an
exponential moving average with time constant tau_mean and retains the two
most recent raw spike tensors in spike_rec (bounded length 2). -/
structure SpikeMovingAverage (b n : ℕ) where
  tau_mean : ℚ
  avg : Mat b n
  spike_rec : List (Mat b n)

/-- Modelled from the spec: SpikeMovingAverage.apply updates
avg toward x by 1/tau_mean, appends x to the bounded spike_rec, and returns
the updated average (spec section 4.2). -/
def SpikeMovingAverage.apply {b n : ℕ} (s : SpikeMovingAverage b n) (x : Mat b n) :
    Mat b n × SpikeMovingAverage b n :=
  let avg : Mat b n := fun i => s.avg i + (x i - s.avg i) / s.tau_mean
  (avg, { s with avg := avg, spike_rec := dequeAppend 2 s.spike_rec x })

/-- tracked_value accessor of SpikeMovingAverage. -/
def SpikeMovingAverage.tracked_value {b n : ℕ} (s : SpikeMovingAverage b n) : Mat b n :=
  s.avg

/-- Modelled from the spec: zero initial state (spec section 4.2 invariant), with
spike_rec pre-filled with two zero tensors so that indices [-1] and [-2] are
defined from the first timestep on. -/
def SpikeMovingAverage.init (b n : ℕ) (tau : ℚ) : SpikeMovingAverage b n :=
  { tau_mean := tau, avg := zeroMat b n, spike_rec := [zeroMat b n, zeroMat b n] }

/-- Modelled from the spec: VarianceMovingAverage (spec section 4.2) keeps an
exponential moving estimate of variance with time constant tau_var. -/
structure VarianceMovingAverage (b n : ℕ) where
  tau_var : ℚ
  variance : Mat b n

/-- Modelled from the spec: VarianceMovingAverage.apply moves the estimate toward
the squared deviation of the spike from the supplied moving average
(spec section 4.2); no epsilon is added inside the tracker. -/
def VarianceMovingAverage.apply {b n : ℕ} (v : VarianceMovingAverage b n)
    (spike : Mat b n) (spike_moving_average : Mat b n) :
    Mat b n × VarianceMovingAverage b n :=
  let variance : Mat b n :=
    fun i => v.variance i + ((spike i - spike_moving_average i) ^ 2 - v.variance i) / v.tau_var
  (variance, { v with variance := variance })

/-- tracked_value accessor of VarianceMovingAverage. -/
def VarianceMovingAverage.tracked_value {b n : ℕ} (v : VarianceMovingAverage b n) : Mat b n :=
  v.variance

/-- Modelled from the spec: VarianceMovingAverage zero initial state. -/
def VarianceMovingAverage.init (b n : ℕ) (tau : ℚ) : VarianceMovingAverage b n :=
  { tau_var := tau, variance := zeroMat b n }

/-- Modelled from the spec: MovingAverageLIF (model/src/util.py, absent from src/)
bundles LIF dynamics (spec section 4.4: decay, threshold crossing, reset) with a
SpikeMovingAverage and a VarianceMovingAverage over the emitted spikes, which
model.py reads as forward_lif.spike_moving_average and
forward_lif.variance_moving_average. -/
structure MovingAverageLIF (b n : ℕ) where
  beta : ℚ
  threshold : ℚ
  spike_moving_average : SpikeMovingAverage b n
  variance_moving_average : VarianceMovingAverage b n

/-- Modelled from the spec: one LIF step (spec section 4.4): decay the membrane by
beta and add the synaptic current, emit a binary spike where the membrane
exceeds the threshold, subtract the threshold where a spike occurred, and
feed the emitted spike to the spike and variance trackers. -/
def MovingAverageLIF.call {b n : ℕ} (lif : MovingAverageLIF b n)
    (current mem : Mat b n) : (Mat b n × Mat b n) × MovingAverageLIF b n :=
  let memI : Mat b n := fun i => lif.beta * mem i + current i
  let spk : Mat b n := fun i => if lif.threshold < memI i then 1 else 0
  let memR : Mat b n := fun i => memI i - spk i * lif.threshold
  let (avg, sma) := lif.spike_moving_average.apply spk
  let (_, vma) := lif.variance_moving_average.apply spk avg
  ((spk, memR),
   { lif with spike_moving_average := sma, variance_moving_average := vma })

/-- Modelled from the spec: init_leaky returns the zero initial membrane. -/
def MovingAverageLIF.init_leaky (b n : ℕ) : Mat b n := zeroMat b n

/-- The mutable state of model.py Layer (model.py lines 77-108), for batch size
b, layer size n and presynaptic size p (prev_size; equal to data_size for the
first layer).  forward_weights is the nn.Linear weight matrix (shape n by p)
together with its bias; layer_settings.beta and layer_settings.learning_rate
are inlined as fields. -/
structure Layer (b n p : ℕ) where
  learning_rate : ℚ
  beta : ℚ
  weight : Fin n × Fin p → ℚ
  bias : Fin n → ℚ
  forward_lif : MovingAverageLIF b n
  mem : Mat b n
  mem_rec : List (Mat b n)
  alpha_filter_first_term : TemporalFilter (Ten3 b n p)
  epsilon_filter_second_term : TemporalFilter (Ten3 b n p)
  alpha_filter_second_term : TemporalFilter (Mat b p)
  data_spike_moving_average : SpikeMovingAverage b p
  variance_moving_average : VarianceMovingAverage b p

/-- The data model.py reads from self.prev_layer inside forward and
train_forward: the latest spike record entry (model.py line 120; the source
attribute spk_rec is not defined under src/, modelled from spec section 4.4 as the
previous layer most recent spike), the latest membrane record entry, the two
most recent entries of the previous layer forward_lif spike record, and the
tracked values of its spike and variance moving averages. -/
structure PrevView (b p : ℕ) where
  spk_rec_last : Mat b p
  mem_rec_last : Mat b p
  spike_rec_last : Mat b p
  spike_rec_two_ago : Mat b p
  spike_avg : Mat b p
  variance : Mat b p

/-- The read-only view a successor layer takes of this layer. -/
def Layer.prevView {b n p : ℕ} (st : Layer b n p) : PrevView b n :=
  { spk_rec_last := recLast st.forward_lif.spike_moving_average.spike_rec (zeroMat b n)
    mem_rec_last := recLast st.mem_rec (zeroMat b n)
    spike_rec_last := recLast st.forward_lif.spike_moving_average.spike_rec (zeroMat b n)
    spike_rec_two_ago := recPenult st.forward_lif.spike_moving_average.spike_rec (zeroMat b n)
    spike_avg := st.forward_lif.spike_moving_average.tracked_value
    variance := st.forward_lif.variance_moving_average.tracked_value }

/-- Embedding of Layer.forward (model.py lines 116-129): choose the input
(external data if supplied, otherwise the previous layer latest spike; the
source asserts a previous layer exists in that branch, and the orphan
none/none case returns the zero input), apply the nn.Linear forward_weights,
run one MovingAverageLIF step, store the new membrane in mem and append it to
mem_rec; the emitted spike and the updated layer state are returned. -/
def Layer.forward {b n p : ℕ} (prev : Option (PrevView b p)) (st : Layer b n p)
    (data : Option (Mat b p)) : Mat b n × Layer b n p :=
  let inp : Mat b p :=
    match data with
    | some d => d
    | none =>
      match prev with
      | some pv => pv.spk_rec_last
      | none => zeroMat b p
  let current : Mat b n :=
    fun x => (∑ j : Fin p, st.weight (x.2, j) * inp (x.1, j)) + st.bias x.2
  let ((spk, memN), lif) := st.forward_lif.call current st.mem
  (spk,
   { st with
      forward_lif := lif
      mem := memN
      mem_rec := dequeAppend MAX_RETAINED_MEMS st.mem_rec memN })

/-- The presynaptic membrane value used by the first plasticity term
(model.py lines 169-171): a constant DATA_MEM_ASSUMPTION tensor when there is
no previous layer, otherwise the previous layer mem_rec[-1]. -/
def presynMemLast {b p : ℕ} (prev : Option (PrevView b p)) : Mat b p :=
  match prev with
  | none => fun _ => DATA_MEM_ASSUMPTION
  | some pv => pv.mem_rec_last

/-- The most recent presynaptic spike sample read by the second plasticity
term (model.py lines 188-189): data_spike_moving_average.spike_rec[-1] for
the first layer, otherwise the previous layer
forward_lif.spike_moving_average.spike_rec[-1]. -/
def presynSpikeLast {b n p : ℕ} (prev : Option (PrevView b p)) (st : Layer b n p) : Mat b p :=
  match prev with
  | none => recLast st.data_spike_moving_average.spike_rec (zeroMat b p)
  | some pv => pv.spike_rec_last

/-- The second most recent presynaptic spike sample (model.py lines 190-191). -/
def presynSpikeTwoAgo {b n p : ℕ} (prev : Option (PrevView b p)) (st : Layer b n p) : Mat b p :=
  match prev with
  | none => recPenult st.data_spike_moving_average.spike_rec (zeroMat b p)
  | some pv => pv.spike_rec_two_ago

/-- The presynaptic spike moving average (model.py lines 192-193). -/
def presynSpikeAvg {b n p : ℕ} (prev : Option (PrevView b p)) (st : Layer b n p) : Mat b p :=
  match prev with
  | none => st.data_spike_moving_average.tracked_value
  | some pv => pv.spike_avg

/-- The presynaptic variance moving average (model.py lines 194-195). -/
def presynVariance {b n p : ℕ} (prev : Option (PrevView b p)) (st : Layer b n p) : Mat b p :=
  match prev with
  | none => st.variance_moving_average.tracked_value
  | some pv => pv.variance

/-- Embedding of the data-tracker prologue of Layer.train_forward (model.py
lines 159-162): when external data is supplied, feed it to
data_spike_moving_average and then, using the fresh mean, to
variance_moving_average. -/
def Layer.apply_data_trackers {b n p : ℕ} (st : Layer b n p)
    (data : Option (Mat b p)) : Layer b n p :=
  match data with
  | some d =>
    let (data_mean, dsma) := st.data_spike_moving_average.apply d
    let (_, dvma) := st.variance_moving_average.apply d data_mean
    { st with data_spike_moving_average := dsma, variance_moving_average := dvma }
  | none => st

/-- The intermediate quantities of one Layer.train_forward call (model.py
lines 158-213): the post-forward state st1, the spike returned by the
internal forward call, and the three terms of the update together with the
advanced filter states. -/
structure TrainComputed (b n p : ℕ) where
  st1 : Layer b n p
  spk : Mat b n
  most_recent_spike : Mat b n
  first_term : Ten3 b n p
  second_term_no_filter : Mat b p
  second_term_alpha : Ten3 b n p
  third_term : Ten3 b n p
  epsF : TemporalFilter (Ten3 b n p)
  alphaF1 : TemporalFilter (Ten3 b n p)
  alphaF2 : TemporalFilter (Mat b p)

/-- Embedding of the body of Layer.train_forward up to the weight update
(model.py lines 158-213): update the data trackers, run the internal forward
step, then form the three terms.  The first term multiplies the most recent
postsynaptic spike by the derivative factor
beta * (1 + beta * |prev_mem - THETA_REST|) ^ (-2), applies the epsilon and
alpha filters and scales by learning_rate twice (lines 168-185).  The second
term is -(s[-1] - s[-2]) + LAMBDA_HEBBIAN / (variance + XI) * (s[-1] - avg)
of presynaptic quantities, alpha-filtered and broadcast over the postsynaptic
dimension (lines 187-205).  The third term is learning_rate * DELTA times the
most recent postsynaptic spike, broadcast over the presynaptic dimension
(lines 207-213). -/
def Layer.train_compute {b n p : ℕ} (prev : Option (PrevView b p))
    (st0 : Layer b n p) (data : Option (Mat b p)) : TrainComputed b n p :=
  let stD := st0.apply_data_trackers data
  let (spk, st1) := Layer.forward prev stD data
  let prev_layer_mem := presynMemLast prev
  let f_prime_u_i : Mat b p :=
    fun x => st1.beta * (1 + st1.beta * |prev_layer_mem x - THETA_REST|) ^ (-2 : ℤ)
  let most_recent_spike : Mat b n :=
    recLast st1.forward_lif.spike_moving_average.spike_rec (zeroMat b n)
  let first_term_no_filter : Ten3 b n p :=
    fun x => most_recent_spike (x.1, x.2.1) * f_prime_u_i (x.1, x.2.2)
  let (first_term_epsilon, epsF) :=
    st1.epsilon_filter_second_term.apply first_term_no_filter
  let (first_term_alpha, alphaF1) :=
    st1.alpha_filter_first_term.apply first_term_epsilon
  let first_term : Ten3 b n p :=
    fun x => st1.learning_rate * first_term_alpha x * st1.learning_rate
  let s_last := presynSpikeLast prev st1
  let s_two := presynSpikeTwoAgo prev st1
  let s_avg := presynSpikeAvg prev st1
  let s_var := presynVariance prev st1
  let second_term_no_filter : Mat b p :=
    fun x => -1 * (s_last x - s_two x) +
      LAMBDA_HEBBIAN / (s_var x + XI) * (s_last x - s_avg x)
  let (second_term_filtered, alphaF2) :=
    st1.alpha_filter_second_term.apply second_term_no_filter
  let second_term_alpha : Ten3 b n p := fun x => second_term_filtered (x.1, x.2.2)
  let third_term : Ten3 b n p :=
    fun x => st1.learning_rate * DELTA * most_recent_spike (x.1, x.2.1)
  { st1 := st1
    spk := spk
    most_recent_spike := most_recent_spike
    first_term := first_term
    second_term_no_filter := second_term_no_filter
    second_term_alpha := second_term_alpha
    third_term := third_term
    epsF := epsF
    alphaF1 := alphaF1
    alphaF2 := alphaF2 }

/-- Embedding of Layer.train_forward (model.py lines 131-218): after the
computation of the three terms, dw_dt = first_term * second_term_alpha +
third_term is summed over the batch dimension, divided by dw_dt.shape[0]
(the batch size) and added in place to forward_weights.weight; the advanced
filter states are stored back. -/
def Layer.train_forward {b n p : ℕ} (prev : Option (PrevView b p))
    (st0 : Layer b n p) (data : Option (Mat b p)) : Layer b n p :=
  let c := Layer.train_compute prev st0 data
  let dw_dt : Ten3 b n p :=
    fun x => c.first_term x * c.second_term_alpha x + c.third_term x
  let dw : Fin n × Fin p → ℚ :=
    fun ij => (∑ bi : Fin b, dw_dt (bi, ij)) / (b : ℚ)
  { c.st1 with
      weight := fun ij => c.st1.weight ij + dw ij
      epsilon_filter_second_term := c.epsF
      alpha_filter_first_term := c.alphaF1
      alpha_filter_second_term := c.alphaF2 }

/-- Embedding of Layer.__init__ (model.py lines 78-108): the nn.Linear weight
and bias are construction parameters w0 and bias0; mem_rec is a deque of
capacity MAX_RETAINED_MEMS to which a zero tensor is appended twice; the
membrane starts at init_leaky (zero); filters start from zero state with the
fixed tau constants; the data trackers start from zero state. -/
def Layer.init (b n p : ℕ) (lr beta : ℚ) (w0 : Fin n × Fin p → ℚ)
    (bias0 : Fin n → ℚ) (tau_mean tau_var threshold : ℚ) : Layer b n p :=
  { learning_rate := lr
    beta := beta
    weight := w0
    bias := bias0
    forward_lif :=
      { beta := beta
        threshold := threshold
        spike_moving_average := SpikeMovingAverage.init b n tau_mean
        variance_moving_average := VarianceMovingAverage.init b n tau_var }
    mem := MovingAverageLIF.init_leaky b n
    mem_rec := dequeAppend MAX_RETAINED_MEMS
      (dequeAppend MAX_RETAINED_MEMS [] (zeroMat b n)) (zeroMat b n)
    alpha_filter_first_term :=
      { tau_rise := TAU_RISE_ALPHA, tau_fall := TAU_FALL_ALPHA
        rise := fun _ => 0, fall := fun _ => 0 }
    epsilon_filter_second_term :=
      { tau_rise := TAU_RISE_EPSILON, tau_fall := TAU_FALL_EPSILON
        rise := fun _ => 0, fall := fun _ => 0 }
    alpha_filter_second_term :=
      { tau_rise := TAU_RISE_ALPHA, tau_fall := TAU_FALL_ALPHA
        rise := fun _ => 0, fall := fun _ => 0 }
    data_spike_moving_average := SpikeMovingAverage.init b p tau_mean
    variance_moving_average := VarianceMovingAverage.init b p tau_var }

/-- A two-layer network fragment: layer0 (presynaptic size p, no previous
layer) feeding layer1, as wired by Net.__init__ (model.py lines 244-249). -/
structure TwoNet (b n m p : ℕ) where
  layer0 : Layer b n p
  layer1 : Layer b m n

/-- Running forward on layer 0 alone (external data), as the first iteration
of the per-timestep loop does. -/
def TwoNet.forward_layer0 {b n m p : ℕ} (tn : TwoNet b n m p) (data : Mat b p) :
    TwoNet b n m p :=
  { tn with layer0 := (Layer.forward none tn.layer0 (some data)).2 }

/-- Running forward on layer 1 alone, reading layer 0 through the prev-layer
back-reference, as the later iterations of the per-timestep loop do. -/
def TwoNet.forward_layer1 {b n m p : ℕ} (tn : TwoNet b n m p) : TwoNet b n m p :=
  { tn with layer1 := (Layer.forward (some tn.layer0.prevView) tn.layer1 none).2 }

/-- A concrete 1-by-1-by-1 layer used to instantiate hypotheses of the
theorems below on explicit inputs. -/
def sampleLayer : Layer 1 1 1 :=
  Layer.init 1 1 1 (1 / 100) 1 (fun _ => 1) (fun _ => 0) 10 20 1

/-! Embedding of src/model/src/network.py (call scheduling) and
src/model/src/settings.py (configuration records). -/

/-- One observable call of the network step loops: forward or train_synapses
of the layer with the given index. -/
inductive Ev where
  | fwd : ℕ → Ev
  | train : ℕ → Ev
  deriving DecidableEq

/-- Embedding of the loop of Net.process_data_single_timestep (network.py
lines 72-81) as its sequence of calls: for each layer index i in order, the
loop body calls layer.forward (with the external data exactly when i = 0) and
then, in the same iteration, layer.train_synapses.  The inner per-timestep
loop of Net.process_data_online (network.py lines 98-105) performs the same
per-layer call sequence. -/
def process_data_single_timestep_events (n : ℕ) : List Ev :=
  (List.range n).flatMap (fun i => [Ev.fwd i, Ev.train i])

/-- The two-phase schedule the specification describes: all forward calls in
index order, then all train_synapses calls in index order. -/
def phased_events (n : ℕ) : List Ev :=
  (List.range n).map Ev.fwd ++ (List.range n).map Ev.train

/-- Embedding of Net.process_data_online (network.py lines 84-108) as the
list of (epoch, batch, timestep) triples whose per-timestep step is executed,
in execution order.  batchTimesteps lists the number of timesteps of each
mini-batch the loader yields per epoch.  The source iterates epochs and
batches, runs every timestep of the current batch, and then executes the
return statement at line 108 inside the batch loop, so with at least one
epoch and a nonempty loader exactly the timesteps of (epoch 0, batch 0) run;
with zero epochs or an empty loader, nothing runs. -/
def process_data_online_schedule (epochs : ℕ) (batchTimesteps : List ℕ) :
    List (ℕ × ℕ × ℕ) :=
  match epochs, batchTimesteps with
  | 0, _ => []
  | _ + 1, [] => []
  | _ + 1, t :: _ => (List.range t).map (fun ts => (0, 0, ts))

/-- The full epoch-by-batch schedule the claim describes: every timestep of
every (epoch, batch) pair, epochs outermost, in strict time order. -/
def full_epoch_batch_schedule (epochs : ℕ) (batchTimesteps : List ℕ) :
    List (ℕ × ℕ × ℕ) :=
  (List.range epochs).flatMap (fun e =>
    batchTimesteps.enum.flatMap (fun bt =>
      (List.range bt.2).map (fun ts => (e, bt.1, ts))))

/-- Embedding of the per-element input preparation of Net.process_data_online
(network.py lines 92-93): when settings.encode_spike_trains holds, the batch
is replaced by (batch > 0.5).float() before its timesteps are fed to the
layers. -/
def encode_threshold (x : ℚ) : ℚ := if (1 : ℚ) / 2 < x then 1 else 0

/-- The tensor the layers consume, as a function of the caller-supplied batch
(flattened to a list of entries) and the encode_spike_trains flag
(network.py lines 92-93). -/
def prepare_batch (encode_spike_trains : Bool) (batch : List ℚ) : List ℚ :=
  if encode_spike_trains then batch.map encode_threshold else batch

/-- Embedding of the Settings record of src/model/src/settings.py (lines
4-29); the torch.device field is dropped as it has no numeric content. -/
structure Settings where
  layer_sizes : List ℕ
  data_size : ℕ
  batch_size : ℕ
  learning_rate : ℚ
  epochs : ℕ
  encode_spike_trains : Bool
  dt : ℚ
  percentage_inhibitory : ℚ
  exc_to_inhib_conn_c : ℚ
  exc_to_inhib_conn_sigma_squared : ℚ
  layer_sparsity : ℚ

/-- Embedding of Settings.__init__ (settings.py lines 5-29): the constructor
body is nothing but field assignments, with no validation of any argument. -/
def Settings.init (layer_sizes : List ℕ) (data_size batch_size : ℕ)
    (learning_rate : ℚ) (epochs : ℕ) (encode_spike_trains : Bool)
    (dt percentage_inhibitory exc_to_inhib_conn_c
      exc_to_inhib_conn_sigma_squared layer_sparsity : ℚ) : Settings :=
  { layer_sizes := layer_sizes
    data_size := data_size
    batch_size := batch_size
    learning_rate := learning_rate
    epochs := epochs
    encode_spike_trains := encode_spike_trains
    dt := dt
    percentage_inhibitory := percentage_inhibitory
    exc_to_inhib_conn_c := exc_to_inhib_conn_c
    exc_to_inhib_conn_sigma_squared := exc_to_inhib_conn_sigma_squared
    layer_sparsity := layer_sparsity }

/-- Embedding of the LayerSettings record of settings.py (lines 32-49); the
torch.device field is dropped. -/
structure LayerSettings where
  layer_id : ℕ
  prev_size : ℕ
  size : ℕ
  next_size : ℕ
  batch_size : ℕ
  learning_rate : ℚ
  data_size : ℕ
  dt : ℚ
  percentage_inhibitory : ℚ
  exc_to_inhib_conn_c : ℚ
  exc_to_inhib_conn_sigma_squared : ℚ
  layer_sparsity : ℚ

/-- Embedding of LayerSettings.__init__ (settings.py lines 33-49): field
assignments only, no validation. -/
def LayerSettings.init (layer_id prev_size size next_size batch_size : ℕ)
    (learning_rate : ℚ) (data_size : ℕ)
    (dt percentage_inhibitory exc_to_inhib_conn_c
      exc_to_inhib_conn_sigma_squared layer_sparsity : ℚ) : LayerSettings :=
  { layer_id := layer_id
    prev_size := prev_size
    size := size
    next_size := next_size
    batch_size := batch_size
    learning_rate := learning_rate
    data_size := data_size
    dt := dt
    percentage_inhibitory := percentage_inhibitory
    exc_to_inhib_conn_c := exc_to_inhib_conn_c
    exc_to_inhib_conn_sigma_squared := exc_to_inhib_conn_sigma_squared
    layer_sparsity := layer_sparsity }

/-! Helper lemmas about the bounded deque. -/

theorem dequeAppend_length_le {α : Type} (q : List α) (x : α) :
    (dequeAppend 2 q x).length ≤ 2 := by
  simp only [dequeAppend, List.length_drop, List.length_append, List.length_cons,
    List.length_nil]
  omega

theorem dequeAppend_length_of_two {α : Type} (q : List α) (x : α) (h : q.length = 2) :
    (dequeAppend 2 q x).length = 2 := by
  simp only [dequeAppend, List.length_drop, List.length_append, List.length_cons,
    List.length_nil]
  omega

theorem dequeAppend_two_full {α : Type} (m1 m2 x : α) :
    dequeAppend 2 [m1, m2] x = [m2, x] := rfl

theorem recLast_dequeAppend {α : Type} (q : List α) (x d : α) :
    recLast (dequeAppend 2 q x) d = x := by
  have hk : q.length + 1 - 2 ≤ q.length := by omega
  simp only [dequeAppend, List.length_append, List.length_cons, List.length_nil]
  rw [show q.length + 0 + 1 - 2 = q.length + 1 - 2 by omega,
    List.drop_append_of_le_length hk]
  simp [recLast, List.getLast?_concat]

/-! C2: order of forward and train_synapses calls within one network step. -/

/-- C2, counterexample: the claim states that Net.process_data_single_timestep
first runs forward on all layers and only then runs the plasticity updates,
i.e. that its call sequence is the two-phase schedule; on a two-layer network
the actual call sequence of the loop (network.py lines 75-81) is
[fwd 0, train 0, fwd 1, train 1], which is not the two-phase schedule
[fwd 0, fwd 1, train 0, train 1]: layer 0 is plasticity-updated before
layer 1 runs forward. -/
theorem c2_counterexample :
    process_data_single_timestep_events 2 ≠ phased_events 2 ∧
      process_data_single_timestep_events 2 =
        [Ev.fwd 0, Ev.train 0, Ev.fwd 1, Ev.train 1] := by
  constructor <;> decide

/-- C2, amended: for every number of layers n, the single-timestep step
processes layers in index order, each layer running forward (layer 0 with the
external input) immediately followed by its own train_synapses call in the
same loop iteration, so layer k is plasticity-updated before layer k+1 runs
forward; for a network with at most one layer this coincides with the
two-phase schedule the claim describes. -/
theorem c2_interleaved_schedule (n : ℕ) :
    process_data_single_timestep_events 0 = [] ∧
      process_data_single_timestep_events (n + 1) =
        process_data_single_timestep_events n ++ [Ev.fwd n, Ev.train n] ∧
      process_data_single_timestep_events 1 = phased_events 1 := by
  refine ⟨rfl, ?_, by decide⟩
  simp [process_data_single_timestep_events, List.range_succ]

/-! C3: the epoch-by-batch training schedule of Net.process_data_online. -/

/-- C3: evaluation of the code at the failing input: with 2 epochs and two
mini-batches of 3 and 2 timesteps, Net.process_data_online executes only the
3 timesteps of (epoch 0, batch 0) and then hits the return statement at
network.py line 108, whereas the specified full schedule contains all 10
(epoch, batch, timestep) steps. -/
theorem c3_early_return_evaluation :
    process_data_online_schedule 2 [3, 2] = [(0, 0, 0), (0, 0, 1), (0, 0, 2)] ∧
      full_epoch_batch_schedule 2 [3, 2] =
        [(0, 0, 0), (0, 0, 1), (0, 0, 2), (0, 1, 0), (0, 1, 1),
         (1, 0, 0), (1, 0, 1), (1, 0, 2), (1, 1, 0), (1, 1, 1)] ∧
      process_data_online_schedule 2 [3, 2] ≠ full_epoch_batch_schedule 2 [3, 2] := by
  refine ⟨by decide, by decide, by decide⟩

/-! C4: configuration validation at construction time. -/

/-- C4, counterexample: the claim states that constructing Settings or
LayerSettings with percentage_inhibitory outside [0, 100] or with
learning_rate ≤ 0 fails with a configuration error and never stores the
invalid value; but Settings.__init__ (settings.py lines 5-29) and
LayerSettings.__init__ (lines 33-49) contain no validation at all, so
construction with percentage_inhibitory = 150 and learning_rate = -1
succeeds and stores exactly those invalid values. -/
theorem c4_counterexample :
    (Settings.init [1] 2 1 (-1) 1 false 1 150 1 1 1).percentage_inhibitory = 150 ∧
      (Settings.init [1] 2 1 (-1) 1 false 1 150 1 1 1).learning_rate = -1 ∧
      (LayerSettings.init 0 2 1 0 1 (-1) 2 1 150 1 1 1).percentage_inhibitory = 150 ∧
      ¬ (0 ≤ (150 : ℚ) ∧ (150 : ℚ) ≤ 100) ∧ ¬ (0 < (-1 : ℚ)) := by
  refine ⟨rfl, rfl, rfl, by norm_num, by norm_num⟩

/-- C4, amended: the Settings and LayerSettings constructors perform no
validation whatsoever: for all argument values, including out-of-range
percentage_inhibitory and non-positive learning_rate, construction succeeds
and every field equals the corresponding argument unchanged, so any invalid
value is stored and reaches first use. -/
theorem c4_constructors_store_values (ls : List ℕ) (ds bs : ℕ) (lr : ℚ) (ep : ℕ)
    (est : Bool) (dt pi cc ss sp : ℚ) (lid ps sz ns bs2 : ℕ) (lr2 : ℚ) (ds2 : ℕ)
    (dt2 pi2 cc2 ss2 sp2 : ℚ) :
    (Settings.init ls ds bs lr ep est dt pi cc ss sp).percentage_inhibitory = pi ∧
      (Settings.init ls ds bs lr ep est dt pi cc ss sp).learning_rate = lr ∧
      (Settings.init ls ds bs lr ep est dt pi cc ss sp).layer_sizes = ls ∧
      (Settings.init ls ds bs lr ep est dt pi cc ss sp).dt = dt ∧
      (Settings.init ls ds bs lr ep est dt pi cc ss sp).layer_sparsity = sp ∧
      (LayerSettings.init lid ps sz ns bs2 lr2 ds2 dt2 pi2 cc2 ss2 sp2).percentage_inhibitory = pi2 ∧
      (LayerSettings.init lid ps sz ns bs2 lr2 ds2 dt2 pi2 cc2 ss2 sp2).learning_rate = lr2 ∧
      (LayerSettings.init lid ps sz ns bs2 lr2 ds2 dt2 pi2 cc2 ss2 sp2).dt = dt2 := by
  exact ⟨rfl, rfl, rfl, rfl, rfl, rfl, rfl, rfl⟩

/-! C5: where the encode_spike_trains thresholding happens. -/

/-- C5, counterexample: the claim states that the network never applies the
0.5-threshold transformation itself, so the tensor the layers consume equals
the caller-supplied input unchanged; but Net.process_data_online applies
(batch > 0.5).float() itself (network.py lines 92-93) whenever
settings.encode_spike_trains is set, so a caller-supplied entry 7/10 is
consumed by the layers as 1, not as 7/10. -/
theorem c5_counterexample :
    prepare_batch true [7 / 10] = [1] ∧
      prepare_batch true [7 / 10] ≠ [7 / 10] := by
  have h : prepare_batch true [7 / 10] = [1] := by
    simp only [prepare_batch, List.map, encode_threshold]
    norm_num
  refine ⟨h, ?_⟩
  rw [h]
  intro hcontra
  have : (1 : ℚ) = 7 / 10 := List.head_eq_of_cons_eq hcontra
  norm_num at this

/-- C5, amended: the thresholding is performed inside the core itself, by
Net.process_data_online, exactly when settings.encode_spike_trains is set:
with the flag off the layers consume the caller-supplied batch unchanged, and
with the flag on they consume the elementwise (batch > 0.5).float()
transformation of it. -/
theorem c5_threshold_inside_core (batch : List ℚ) :
    prepare_batch false batch = batch ∧
      prepare_batch true batch = batch.map encode_threshold ∧
      (∀ x : ℚ, encode_threshold x = if 1 / 2 < x then 1 else 0) := by
  exact ⟨rfl, rfl, fun _ => rfl⟩

/-! Structural lemmas about Layer.apply_data_trackers, Layer.forward and
Layer.train_compute, shared by the claim theorems below. -/

theorem apply_data_trackers_mem_rec {b n p : ℕ} (st : Layer b n p)
    (data : Option (Mat b p)) : (st.apply_data_trackers data).mem_rec = st.mem_rec := by
  cases data <;> rfl

theorem apply_data_trackers_weight {b n p : ℕ} (st : Layer b n p)
    (data : Option (Mat b p)) : (st.apply_data_trackers data).weight = st.weight := by
  cases data <;> rfl

theorem apply_data_trackers_bias {b n p : ℕ} (st : Layer b n p)
    (data : Option (Mat b p)) : (st.apply_data_trackers data).bias = st.bias := by
  cases data <;> rfl

theorem train_compute_st1_weight {b n p : ℕ} (prev : Option (PrevView b p))
    (st0 : Layer b n p) (data : Option (Mat b p)) :
    (Layer.train_compute prev st0 data).st1.weight = st0.weight := by
  cases data <;> rfl

theorem train_forward_weight_apply {b n p : ℕ} (prev : Option (PrevView b p))
    (st0 : Layer b n p) (data : Option (Mat b p)) (i : Fin n) (j : Fin p) :
    (Layer.train_forward prev st0 data).weight (i, j) =
      (Layer.train_compute prev st0 data).st1.weight (i, j) +
        (∑ bi : Fin b,
            ((Layer.train_compute prev st0 data).first_term (bi, i, j) *
                (Layer.train_compute prev st0 data).second_term_alpha (bi, i, j) +
              (Layer.train_compute prev st0 data).third_term (bi, i, j))) / (b : ℚ) := rfl

/-! C1: the weight update applied by the plasticity rule. -/

/-- C1: for every layer state and every training step, the weight change on
the (size by prev_size) forward_weights matrix equals the elementwise product
of the first and second terms plus the third term, summed over the batch
dimension and divided by the batch size, added in place to forward_weights
(model.py lines 215-218); the nn.Linear bias is untouched. -/
theorem c1_weight_update {b n p : ℕ} (prev : Option (PrevView b p))
    (st0 : Layer b n p) (data : Option (Mat b p)) (i : Fin n) (j : Fin p) :
    (Layer.train_forward prev st0 data).weight (i, j) =
      st0.weight (i, j) +
        (∑ bi : Fin b,
            ((Layer.train_compute prev st0 data).first_term (bi, i, j) *
                (Layer.train_compute prev st0 data).second_term_alpha (bi, i, j) +
              (Layer.train_compute prev st0 data).third_term (bi, i, j))) / (b : ℚ) ∧
      (Layer.train_forward prev st0 data).bias = st0.bias := by
  refine ⟨?_, ?_⟩
  · rw [train_forward_weight_apply, train_compute_st1_weight]
  · cases data <;> rfl

/-! C6: the unfiltered second plasticity term. -/

/-- C6: for every layer state and every training step, the unfiltered second
term equals minus the difference between the two most recently retained
presynaptic spike samples, plus the Hebbian gain constant LAMBDA_HEBBIAN
divided by (presynaptic variance moving average + the strictly positive
constant XI) times (most recent presynaptic spike minus presynaptic spike
moving average) (model.py lines 197-201); this quantity is passed through the
alpha-type filter alpha_filter_second_term and broadcast across the
postsynaptic dimension (lines 202-205), so its value does not depend on the
postsynaptic index. -/
theorem c6_second_term {b n p : ℕ} (prev : Option (PrevView b p))
    (st0 : Layer b n p) (data : Option (Mat b p)) :
    (∀ x : Fin b × Fin p,
        (Layer.train_compute prev st0 data).second_term_no_filter x =
          -(presynSpikeLast prev (Layer.train_compute prev st0 data).st1 x -
              presynSpikeTwoAgo prev (Layer.train_compute prev st0 data).st1 x) +
            LAMBDA_HEBBIAN /
                (presynVariance prev (Layer.train_compute prev st0 data).st1 x + XI) *
              (presynSpikeLast prev (Layer.train_compute prev st0 data).st1 x -
                presynSpikeAvg prev (Layer.train_compute prev st0 data).st1 x)) ∧
      0 < XI ∧
      (∀ x : Fin b × Fin n × Fin p,
        (Layer.train_compute prev st0 data).second_term_alpha x =
          ((Layer.train_compute prev st0 data).st1.alpha_filter_second_term.apply
              (Layer.train_compute prev st0 data).second_term_no_filter).1
            (x.1, x.2.2)) := by
  refine ⟨?_, by norm_num [XI], fun _ => rfl⟩
  intro x
  have h : (Layer.train_compute prev st0 data).second_term_no_filter x =
      -1 * (presynSpikeLast prev (Layer.train_compute prev st0 data).st1 x -
          presynSpikeTwoAgo prev (Layer.train_compute prev st0 data).st1 x) +
        LAMBDA_HEBBIAN /
            (presynVariance prev (Layer.train_compute prev st0 data).st1 x + XI) *
          (presynSpikeLast prev (Layer.train_compute prev st0 data).st1 x -
            presynSpikeAvg prev (Layer.train_compute prev st0 data).st1 x) := rfl
  rw [h, neg_one_mul]

/-! C7: frame of Layer.forward. -/

/-- C7: for every layer state and every forward call, with or without
external input, forward_weights (weight and bias) are unchanged, as are the
plasticity filters, the data trackers and the hyperparameters: forward only
replaces the layer transient membrane state (membrane, membrane history and
the LIF spike trackers).  At the network level, running forward on one layer
of a two-layer network leaves the other layer entirely unchanged. -/
theorem c7_forward_frame {b n m p : ℕ} (prev : Option (PrevView b p))
    (st : Layer b n p) (data : Option (Mat b p)) (tn : TwoNet b n m p)
    (dat : Mat b p) :
    (Layer.forward prev st data).2.weight = st.weight ∧
      (Layer.forward prev st data).2.bias = st.bias ∧
      (Layer.forward prev st data).2.learning_rate = st.learning_rate ∧
      (Layer.forward prev st data).2.beta = st.beta ∧
      (Layer.forward prev st data).2.alpha_filter_first_term =
        st.alpha_filter_first_term ∧
      (Layer.forward prev st data).2.epsilon_filter_second_term =
        st.epsilon_filter_second_term ∧
      (Layer.forward prev st data).2.alpha_filter_second_term =
        st.alpha_filter_second_term ∧
      (Layer.forward prev st data).2.data_spike_moving_average =
        st.data_spike_moving_average ∧
      (Layer.forward prev st data).2.variance_moving_average =
        st.variance_moving_average ∧
      (TwoNet.forward_layer1 tn).layer0 = tn.layer0 ∧
      (TwoNet.forward_layer1 tn).layer1.weight = tn.layer1.weight ∧
      (TwoNet.forward_layer0 tn dat).layer1 = tn.layer1 :=
  ⟨rfl, rfl, rfl, rfl, rfl, rfl, rfl, rfl, rfl, rfl, rfl, rfl⟩

/-! C8: bounded FIFO membrane history. -/

/-- C8: every forward call appends the new membrane to mem_rec through the
capacity-MAX_RETAINED_MEMS deque append, so the history holds at most 2
values after the call, its [-1] entry is the membrane just appended, and when
2 values are already retained the oldest is evicted (FIFO): from [m1, m2] the
history becomes [m2, new], whose [-2] entry is the previously appended
membrane m2. -/
theorem c8_mem_rec_fifo {b n p : ℕ} (prev : Option (PrevView b p))
    (st : Layer b n p) (data : Option (Mat b p)) (d : Mat b n) :
    (Layer.forward prev st data).2.mem_rec =
      dequeAppend MAX_RETAINED_MEMS st.mem_rec ((Layer.forward prev st data).2.mem) ∧
      ((Layer.forward prev st data).2.mem_rec).length ≤ 2 ∧
      recLast ((Layer.forward prev st data).2.mem_rec) d =
        (Layer.forward prev st data).2.mem ∧
      (∀ m1 m2 : Mat b n, st.mem_rec = [m1, m2] →
        (Layer.forward prev st data).2.mem_rec =
          [m2, (Layer.forward prev st data).2.mem] ∧
          recPenult ((Layer.forward prev st data).2.mem_rec) d = m2) := by
  have hmr : (Layer.forward prev st data).2.mem_rec =
      dequeAppend 2 st.mem_rec ((Layer.forward prev st data).2.mem) := rfl
  refine ⟨hmr, ?_, ?_, ?_⟩
  · rw [hmr]; exact dequeAppend_length_le _ _
  · rw [hmr]; exact recLast_dequeAppend _ _ _
  · intro m1 m2 h
    rw [hmr, h, dequeAppend_two_full]
    exact ⟨rfl, rfl⟩

/-- C8, witness: on a concrete 1-by-1-by-1 layer whose history holds exactly
the two initial zero membranes, a forward call evicts the oldest zero and the
history becomes [zero, new membrane]. -/
theorem c8_mem_rec_fifo_witness :
    sampleLayer.mem_rec = [zeroMat 1 1, zeroMat 1 1] ∧
      (Layer.forward none sampleLayer none).2.mem_rec =
        [zeroMat 1 1, (Layer.forward none sampleLayer none).2.mem] :=
  ⟨rfl,
    ((c8_mem_rec_fifo none sampleLayer none (zeroMat 1 1)).2.2.2
        (zeroMat 1 1) (zeroMat 1 1) rfl).1⟩

/-! C9: the membrane history always holds exactly two entries. -/

/-- C9: a freshly constructed Layer has mem_rec pre-filled with exactly 2
zero tensors (model.py lines 89-92), so its [-1] and [-2] reads, and a
successor layer read of mem_rec[-1] through the prev-layer view before any
forward has run, are defined and yield zeros; and the count 2 is preserved by
every forward and every train_forward call. -/
theorem c9_mem_rec_two_entries (b n p : ℕ) (lr beta : ℚ)
    (w0 : Fin n × Fin p → ℚ) (bias0 : Fin n → ℚ) (tm tv th : ℚ) (d : Mat b n) :
    (Layer.init b n p lr beta w0 bias0 tm tv th).mem_rec =
      [zeroMat b n, zeroMat b n] ∧
      (Layer.init b n p lr beta w0 bias0 tm tv th).mem_rec.length = 2 ∧
      recLast (Layer.init b n p lr beta w0 bias0 tm tv th).mem_rec d = zeroMat b n ∧
      recPenult (Layer.init b n p lr beta w0 bias0 tm tv th).mem_rec d = zeroMat b n ∧
      (Layer.prevView (Layer.init b n p lr beta w0 bias0 tm tv th)).mem_rec_last =
        zeroMat b n ∧
      (∀ (prev : Option (PrevView b p)) (st : Layer b n p) (data : Option (Mat b p)),
        st.mem_rec.length = 2 →
          ((Layer.forward prev st data).2.mem_rec).length = 2) ∧
      (∀ (prev : Option (PrevView b p)) (st : Layer b n p) (data : Option (Mat b p)),
        st.mem_rec.length = 2 →
          ((Layer.train_forward prev st data).mem_rec).length = 2) := by
  refine ⟨rfl, rfl, rfl, rfl, rfl, ?_, ?_⟩
  · intro prev st data h
    have hmr : (Layer.forward prev st data).2.mem_rec =
        dequeAppend 2 st.mem_rec ((Layer.forward prev st data).2.mem) := rfl
    rw [hmr]
    exact dequeAppend_length_of_two _ _ h
  · intro prev st data h
    have hmr : (Layer.train_forward prev st data).mem_rec =
        dequeAppend 2 (st.apply_data_trackers data).mem_rec
          ((Layer.train_compute prev st data).st1.mem) := rfl
    rw [hmr, apply_data_trackers_mem_rec]
    exact dequeAppend_length_of_two _ _ h

/-- C9, witness: the concrete 1-by-1-by-1 layer starts with exactly 2 retained
membranes and still holds exactly 2 after a forward call. -/
theorem c9_mem_rec_two_entries_witness :
    sampleLayer.mem_rec.length = 2 ∧
      ((Layer.forward none sampleLayer none).2.mem_rec).length = 2 :=
  ⟨rfl,
    (c9_mem_rec_two_entries 1 1 1 (1 / 100) 1 (fun _ => 1) (fun _ => 0) 10 20 1
        (zeroMat 1 1)).2.2.2.2.2.1 none sampleLayer none rfl⟩

/-! C10: train_forward performs exactly one internal forward step. -/

/-- C10: every train_forward call advances the layer by exactly one internal
forward step (model.py line 164): its post-forward state is the result of a
single Layer.forward on the data-tracker-updated state, the membrane history
it leaves behind is exactly one deque append onto the previous history, the
weight update leaves the membrane, membrane history and LIF state exactly as
that single forward produced them, and the most recent spike the update reads
from the spike record is the spike emitted by that same internal forward
call. -/
theorem c10_single_forward_step {b n p : ℕ} (prev : Option (PrevView b p))
    (st0 : Layer b n p) (data : Option (Mat b p)) :
    (Layer.train_compute prev st0 data).st1 =
      (Layer.forward prev (st0.apply_data_trackers data) data).2 ∧
      (Layer.train_compute prev st0 data).spk =
        (Layer.forward prev (st0.apply_data_trackers data) data).1 ∧
      (Layer.train_compute prev st0 data).most_recent_spike =
        (Layer.train_compute prev st0 data).spk ∧
      (Layer.train_compute prev st0 data).st1.mem_rec =
        dequeAppend MAX_RETAINED_MEMS st0.mem_rec
          ((Layer.train_compute prev st0 data).st1.mem) ∧
      (Layer.train_forward prev st0 data).mem =
        (Layer.train_compute prev st0 data).st1.mem ∧
      (Layer.train_forward prev st0 data).mem_rec =
        (Layer.train_compute prev st0 data).st1.mem_rec ∧
      (Layer.train_forward prev st0 data).forward_lif =
        (Layer.train_compute prev st0 data).st1.forward_lif := by
  refine ⟨rfl, rfl, ?_, ?_, rfl, rfl, rfl⟩
  · have hms : (Layer.train_compute prev st0 data).most_recent_spike =
        recLast (dequeAppend 2
            ((st0.apply_data_trackers data).forward_lif.spike_moving_average.spike_rec)
            ((Layer.train_compute prev st0 data).spk)) (zeroMat b n) := rfl
    rw [hms]
    exact recLast_dequeAppend _ _ _
  · have hmr : (Layer.train_compute prev st0 data).st1.mem_rec =
        dequeAppend 2 (st0.apply_data_trackers data).mem_rec
          ((Layer.train_compute prev st0 data).st1.mem) := rfl
    rw [hmr, apply_data_trackers_mem_rec]
    rfl

end LPLSNN
